import Mathlib

/-!
Verification development for the Video-Summarizer-API repository
(single source file src/main.py). The Python code is shallowly embedded:
pure helpers become Lean functions on lists of characters and strings,
and the two external effects (the transcript provider and the generative
text service) become an explicit environment of oracle functions. The
FastAPI endpoint summarize_video becomes a total Lean function from an
environment and a request to an endpoint result.
-/

namespace VideoSummarizer

/-- Character class of the regex bracket expression [0-9A-Za-z_-] used by
both extraction patterns in get_video_id (src/main.py lines 44 to 47). -/
def isTokenChar (c : Char) : Bool :=
  ('0' ≤ c && c ≤ '9') || ('A' ≤ c && c ≤ 'Z') || ('a' ≤ c && c ≤ 'z')
    || c == '_' || c == '-'

/-- Embeds the sub-expression ([0-9A-Za-z_-]\x7b11\x7d) of both regex
patterns: it succeeds exactly when at least 11 characters remain and the
next 11 all lie in the class, capturing those 11 characters. The trailing
.* of pattern 1 can always match (possibly empty), so it never constrains
success and is not represented. -/
def takeToken (rest : List Char) : Option (List Char) :=
  if 11 ≤ rest.length ∧ (rest.take 11).all isTokenChar = true then
    some (rest.take 11)
  else none

/-- Anchored match of pattern 1, (?:v=|\/)([0-9A-Za-z_-]\x7b11\x7d).*, at
the head of the remaining input: the alternation tries the literal v=
first, then a slash, then the 11-character capture group. -/
def matchP1At (l : List Char) : Option (List Char) :=
  if l.take 2 = ['v', '='] then takeToken (l.drop 2)
  else if l.take 1 = ['/'] then takeToken (l.drop 1)
  else none

/-- Anchored match of pattern 2, (?:youtu\.be\/)([0-9A-Za-z_-]\x7b11\x7d),
at the head of the remaining input. -/
def matchP2At (l : List Char) : Option (List Char) :=
  if l.take 9 = ['y', 'o', 'u', 't', 'u', '.', 'b', 'e', '/'] then
    takeToken (l.drop 9)
  else none

/-- Embeds re.search for an anchored matcher: positions are tried left to
right and the first position where the anchored match succeeds wins. -/
def regexSearch (m : List Char → Option (List Char)) : List Char → Option (List Char)
  | [] => m []
  | c :: rest =>
    match m (c :: rest) with
    | some t => some t
    | none => regexSearch m rest

/-- Embeds get_video_id (src/main.py lines 40 to 52): the two patterns are
tried in order and the first capture of the first pattern that matches
anywhere in the URL is returned; if neither matches, None is returned. -/
def get_video_id (url : String) : Option String :=
  match regexSearch matchP1At url.data with
  | some t => some (String.mk t)
  | none =>
    match regexSearch matchP2At url.data with
    | some t => some (String.mk t)
    | none => none

/-- Transcript fragment as consumed by the endpoint. The provider also
attaches timing metadata (start, duration) to each snippet, which the
endpoint never reads; only the text field is used (src/main.py line 121). -/
structure Snippet where
  text : String
deriving DecidableEq

/-- Embeds the flattening expression of src/main.py line 121:
a single-space join of the snippet texts in their original order. -/
def caption_of (transcript_list : List Snippet) : String :=
  String.intercalate (" ") (transcript_list.map (fun snippet => snippet.text))

/-- Modelled from the spec: success path of the Transcript Fetcher joins
all fragment texts with a single space separator, preserving original
order, producing one string. Stated as the obvious recursion so that the
implementation join can be compared against it. -/
def spec_join_single_space : List String → String
  | [] => ""
  | [t] => t
  | t :: u :: rest => t ++ " " ++ spec_join_single_space (u :: rest)

/-- Agent configuration value, mirroring the keyword arguments passed to
the Agent constructor in src/main.py: a name, a role, a model identifier,
an optional tool list, an ordered instruction list and a markdown flag. -/
structure Agent where
  name : String
  role : String
  model_id : String
  tools : List String := []
  instructions : List String
  markdown : Bool := false
deriving DecidableEq

/-- Embeds get_analyst (src/main.py lines 54 to 65). -/
def get_analyst : Agent :=
  { name := "Transcript Analyst"
    role := "Extracts logical segments and raw data from captions"
    model_id := "llama-3.3-70b-versatile"
    instructions :=
      ["Clean filler words from the transcript.",
       "Divide the content into logical chapters based on the flow of conversation.",
       "Extract all specific entities like tools, links, or names mentioned."] }

/-- Embeds get_miner (src/main.py lines 67 to 79). -/
def get_miner : Agent :=
  { name := "Insight Miner"
    role := "Identifies deep insights and the \x27why\x27 behind the video"
    model_id := "llama-3.3-70b-versatile"
    tools := ["DuckDuckGo"]
    instructions :=
      ["Identify the top 3-5 unique insights or \x27Gold Nuggets\x27.",
       "Determine the creator\x27s tone and the target audience.",
       "Highlight the primary problem and solution discussed."] }

/-- Embeds get_editor (src/main.py lines 81 to 96): the Python function
constructs the Lead Editor agent and binds it to the local variable
editor, but has no return statement, so the function falls off its end
and returns None. -/
def get_editor : Option Agent :=
  let editor : Agent :=
    { name := "Lead Editor"
      role := "Final Writer"
      model_id := "llama-3.3-70b-versatile"
      instructions :=
        ["Receive the analysis from the Analyst and Miner.",
         "Format the final output into professional Markdown.",
         "Start with a \x27TL;DR\x27 section.",
         "Follow with a \x27Detailed Breakdown\x27 using headers.",
         "End with a \x27Key Takeaways\x27 checklist.",
         "Ensure the summary is concise and removes any fluff."]
      markdown := true }
  none

/-- Message of the AttributeError raised by Python when .run is looked up
on the None returned by get_editor (src/main.py line 152); it is caught
by the surrounding except block and embedded in the 500 detail. -/
def attrErrMsg : String :=
  "\x27NoneType\x27 object has no attribute \x27run\x27"

/-- Result object of an Agent.run call; the endpoint reads its content. -/
structure RunResponse where
  content : String
deriving DecidableEq

/-- Request body of POST /summarize (src/main.py lines 32 to 33). -/
structure VideoRequest where
  url : String
deriving DecidableEq

/-- Response body of POST /summarize (src/main.py lines 35 to 37). -/
structure SummaryResponse where
  video_id : String
  summary : String
deriving DecidableEq

/-- HTTPException as raised by the endpoint: a status code and a detail. -/
structure HTTPException where
  status_code : Nat
  detail : String
deriving DecidableEq

/-- Outcome of one request to POST /summarize. -/
inductive EndpointResult where
  | response (r : SummaryResponse)
  | error (e : HTTPException)
deriving DecidableEq

/-- True exactly on the success outcome (HTTP 200 with a body). -/
def isResponse : EndpointResult → Bool
  | .response _ => true
  | .error _ => false

/-- Environment of external effects: the transcript fetch
(ytt_api.fetch, which either returns the snippet list or raises with a
message) and the generative service behind Agent.run (which either
returns a RunResponse or raises with a message). -/
structure Env where
  fetch : String → Except String (List Snippet)
  runAgent : Agent → String → Except String RunResponse

/-- Embeds the combined_context f-string of src/main.py lines 144 to 148. -/
def combined_context_of (raw_structure raw_insights : String) : String :=
  "Here is the structural analysis of the video:\n" ++ raw_structure ++ "\n\n"
    ++ "Here are the deep insights found:\n" ++ raw_insights ++ "\n\n"
    ++ "Please compile this into the final report."

/-- Embeds summarize_video (src/main.py lines 99 to 161). Extraction
failure raises HTTP 400; any exception in the fetch block raises HTTP 404
with the cause appended; any exception in the pipeline block raises HTTP
500 with the cause appended. Because get_editor returns None, reaching
the editor step raises the AttributeError whose message is attrErrMsg,
which the except block converts to the 500 response. -/
def summarize_video (env : Env) (request : VideoRequest) : EndpointResult :=
  match get_video_id request.url with
  | none => .error { status_code := 400, detail := "Invalid YouTube URL" }
  | some video_id =>
    match env.fetch video_id with
    | .error e => .error { status_code := 404, detail := "Transcript unavailable: " ++ e }
    | .ok transcript_list =>
      let caption_text := caption_of transcript_list
      match env.runAgent get_analyst caption_text with
      | .error e => .error { status_code := 500, detail := "AI Generation Error: " ++ e }
      | .ok analyst_response =>
        let raw_structure := analyst_response.content
        match env.runAgent get_miner caption_text with
        | .error e => .error { status_code := 500, detail := "AI Generation Error: " ++ e }
        | .ok miner_response =>
          let raw_insights := miner_response.content
          let combined_context := combined_context_of raw_structure raw_insights
          match get_editor with
          | none => .error { status_code := 500, detail := "AI Generation Error: " ++ attrErrMsg }
          | some editor =>
            match env.runAgent editor combined_context with
            | .error e => .error { status_code := 500, detail := "AI Generation Error: " ++ e }
            | .ok final_response =>
              .response { video_id := video_id, summary := final_response.content }

/-- External call performed during a request: one transcript fetch or one
Agent.run invocation with the exact input it received. -/
inductive Event where
  | fetchCall (video_id : String)
  | runCall (agent : Agent) (input : String)
deriving DecidableEq

/-- Instrumented copy of summarize_video that additionally records, in
order, every external call the request performs. -/
def summarize_video_trace (env : Env) (request : VideoRequest) :
    EndpointResult × List Event :=
  match get_video_id request.url with
  | none => (.error { status_code := 400, detail := "Invalid YouTube URL" }, [])
  | some video_id =>
    match env.fetch video_id with
    | .error e =>
      (.error { status_code := 404, detail := "Transcript unavailable: " ++ e },
       [.fetchCall video_id])
    | .ok transcript_list =>
      let caption_text := caption_of transcript_list
      match env.runAgent get_analyst caption_text with
      | .error e =>
        (.error { status_code := 500, detail := "AI Generation Error: " ++ e },
         [.fetchCall video_id, .runCall get_analyst caption_text])
      | .ok analyst_response =>
        let raw_structure := analyst_response.content
        match env.runAgent get_miner caption_text with
        | .error e =>
          (.error { status_code := 500, detail := "AI Generation Error: " ++ e },
           [.fetchCall video_id, .runCall get_analyst caption_text,
            .runCall get_miner caption_text])
        | .ok miner_response =>
          let raw_insights := miner_response.content
          let combined_context := combined_context_of raw_structure raw_insights
          match get_editor with
          | none =>
            (.error { status_code := 500, detail := "AI Generation Error: " ++ attrErrMsg },
             [.fetchCall video_id, .runCall get_analyst caption_text,
              .runCall get_miner caption_text])
          | some editor =>
            match env.runAgent editor combined_context with
            | .error e =>
              (.error { status_code := 500, detail := "AI Generation Error: " ++ e },
               [.fetchCall video_id, .runCall get_analyst caption_text,
                .runCall get_miner caption_text, .runCall editor combined_context])
            | .ok final_response =>
              (.response { video_id := video_id, summary := final_response.content },
               [.fetchCall video_id, .runCall get_analyst caption_text,
                .runCall get_miner caption_text, .runCall editor combined_context])

/-- Generative-stage invocations of a trace: the agent and the exact
input text of each Agent.run call, in order, fetches filtered out. -/
def runCalls : List Event → List (Agent × String)
  | [] => []
  | .runCall a s :: rest => (a, s) :: runCalls rest
  | .fetchCall _ :: rest => runCalls rest

/-- Helper for reasoning about the single-space join: the text contributed
by the fragments after the first one. -/
def tail_join : List String → String
  | [] => ""
  | b :: bs => " " ++ b ++ tail_join bs

/-- Environment in which every external call succeeds: the fetch returns
the two-fragment transcript Hello, world and the generative service
answers every run with a fixed content. -/
def okEnv : Env :=
  { fetch := fun _ => .ok [{ text := "Hello" }, { text := "world" }]
    runAgent := fun a _ => .ok { content := "output of " ++ a.name } }

/-- Environment whose transcript fetch always raises. -/
def fetchFailEnv : Env :=
  { fetch := fun _ => .error ("no captions")
    runAgent := fun a _ => .ok { content := "output of " ++ a.name } }

/-- Environment whose fetch succeeds but whose generative service always
raises. -/
def genFailEnv : Env :=
  { fetch := fun _ => .ok [{ text := "Hello" }, { text := "world" }]
    runAgent := fun _ _ => .error ("model overloaded") }

end VideoSummarizer
namespace VideoSummarizer

lemma takeToken_some {rest t : List Char} (h : takeToken rest = some t) :
    t.length = 11 ∧ t.all isTokenChar = true := by
  unfold takeToken at h
  split at h
  · rename_i hc
    injection h with h
    subst h
    refine ⟨?_, hc.2⟩
    simp only [List.length_take]
    omega
  · cases h

lemma matchP1At_some {l t : List Char} (h : matchP1At l = some t) :
    t.length = 11 ∧ t.all isTokenChar = true := by
  unfold matchP1At at h
  split at h
  · exact takeToken_some h
  · split at h
    · exact takeToken_some h
    · cases h

lemma matchP2At_some {l t : List Char} (h : matchP2At l = some t) :
    t.length = 11 ∧ t.all isTokenChar = true := by
  unfold matchP2At at h
  split at h
  · exact takeToken_some h
  · cases h

lemma regexSearch_prop {m : List Char → Option (List Char)} {P : List Char → Prop}
    (hm : ∀ l t, m l = some t → P t) :
    ∀ l t, regexSearch m l = some t → P t := by
  intro l
  induction l with
  | nil => intro t h; exact hm [] t h
  | cons c rest ih =>
    intro t h
    unfold regexSearch at h
    cases hme : m (c :: rest) with
    | some u =>
      rw [hme] at h
      injection h with h
      subst h
      exact hm _ _ hme
    | none =>
      rw [hme] at h
      exact ih t h

lemma regexSearch_at {m : List Char → Option (List Char)} {t : List Char} :
    ∀ (i : Nat) (l : List Char),
      (∀ j, j < i → m (l.drop j) = none) → m (l.drop i) = some t →
      regexSearch m l = some t := by
  intro i
  induction i with
  | zero =>
    intro l _ hi
    cases l with
    | nil => simpa [regexSearch] using hi
    | cons c rest =>
      unfold regexSearch
      rw [List.drop_zero] at hi
      rw [hi]
  | succ i ih =>
    intro l hfirst hi
    cases l with
    | nil =>
      have h0 := hfirst 0 (Nat.succ_pos i)
      simp only [List.drop_nil] at h0 hi
      rw [h0] at hi
      cases hi
    | cons c rest =>
      unfold regexSearch
      have h0 := hfirst 0 (Nat.succ_pos i)
      rw [List.drop_zero] at h0
      rw [h0]
      apply ih rest
      · intro j hj
        have := hfirst (j + 1) (by omega)
        simpa [List.drop_succ_cons] using this
      · simpa [List.drop_succ_cons] using hi

lemma go_eq_tail : ∀ (as : List String) (a : String),
    String.intercalate.go a " " as = a ++ tail_join as := by
  intro as
  induction as with
  | nil =>
    intro a
    simp [String.intercalate.go, tail_join]
  | cons b bs ih =>
    intro a
    show String.intercalate.go (a ++ " " ++ b) " " bs = a ++ tail_join (b :: bs)
    rw [ih]
    simp [tail_join, String.append_assoc]

lemma spec_join_eq_tail : ∀ (as : List String) (a : String),
    spec_join_single_space (a :: as) = a ++ tail_join as := by
  intro as
  induction as with
  | nil =>
    intro a
    simp [spec_join_single_space, tail_join]
  | cons b bs ih =>
    intro a
    show a ++ " " ++ spec_join_single_space (b :: bs) = a ++ tail_join (b :: bs)
    rw [ih]
    simp [tail_join, String.append_assoc]

end VideoSummarizer
namespace VideoSummarizer

lemma summarize_video_trace_fst (env : Env) (request : VideoRequest) :
    (summarize_video_trace env request).1 = summarize_video env request := by
  cases hv : get_video_id request.url with
  | none => simp [summarize_video, summarize_video_trace, hv]
  | some vid =>
    cases hf : env.fetch vid with
    | error e => simp [summarize_video, summarize_video_trace, hv, hf]
    | ok tl =>
      cases ha : env.runAgent get_analyst (caption_of tl) with
      | error e => simp [summarize_video, summarize_video_trace, hv, hf, ha]
      | ok ar =>
        cases hm : env.runAgent get_miner (caption_of tl) with
        | error e => simp [summarize_video, summarize_video_trace, hv, hf, ha, hm]
        | ok mr => simp [summarize_video, summarize_video_trace, hv, hf, ha, hm, get_editor]

/-- C1: the spec requires the full success path of POST /summarize to
return HTTP 200 pairing the extracted identifier with the Editor output;
in the code get_editor returns None, so a request whose extraction,
fetch, Analyst run and Miner run all succeed still ends in the 500
AttributeError response and no 200 response is ever produced. -/
theorem C1_editor_bug_success_path_unreachable :
    get_editor = none ∧
    summarize_video okEnv { url := "https://youtu.be/JDYtbVxtBhw?t=5" }
      = .error { status_code := 500, detail := "AI Generation Error: " ++ attrErrMsg } :=
  ⟨rfl, rfl⟩

/-- C2: get_editor returns none on every call, hence every request that
reaches the Editor stage fails at the editor.run invocation and no
request to POST /summarize ever yields the success response. -/
theorem C2_get_editor_none_no_completion :
    get_editor = none ∧
    ∀ (env : Env) (request : VideoRequest),
      isResponse (summarize_video env request) = false := by
  refine ⟨rfl, fun env request => ?_⟩
  cases hv : get_video_id request.url with
  | none => simp [summarize_video, hv, isResponse]
  | some vid =>
    cases hf : env.fetch vid with
    | error e => simp [summarize_video, hv, hf, isResponse]
    | ok tl =>
      cases ha : env.runAgent get_analyst (caption_of tl) with
      | error e => simp [summarize_video, hv, hf, ha, isResponse]
      | ok ar =>
        cases hm : env.runAgent get_miner (caption_of tl) with
        | error e => simp [summarize_video, hv, hf, ha, hm, isResponse]
        | ok mr => simp [summarize_video, hv, hf, ha, hm, get_editor, isResponse]

/-- C3: in a run where extraction, fetch and the first two stages
succeed, the Analyst and the Miner each receive exactly the raw
flattened transcript; however the composed Editor input is never
delivered to any third stage, because get_editor returns None: the
recorded external calls stop after the Miner and the request ends in the
500 AttributeError response, so the claimed stage-3 delivery never
happens on any environment. -/
theorem C3_stage_inputs_and_no_third_call :
    (summarize_video_trace okEnv { url := "https://www.youtube.com/watch?v=JDYtbVxtBhw" }).2
      = [Event.fetchCall ("JDYtbVxtBhw"),
         Event.runCall get_analyst ("Hello world"),
         Event.runCall get_miner ("Hello world")] ∧
    (summarize_video_trace okEnv { url := "https://www.youtube.com/watch?v=JDYtbVxtBhw" }).1
      = .error { status_code := 500, detail := "AI Generation Error: " ++ attrErrMsg } ∧
    ∀ (env : Env) (request : VideoRequest),
      (runCalls (summarize_video_trace env request).2).length ≤ 2 := by
  refine ⟨rfl, rfl, fun env request => ?_⟩
  cases hv : get_video_id request.url with
  | none => simp [summarize_video_trace, hv, runCalls]
  | some vid =>
    cases hf : env.fetch vid with
    | error e => simp [summarize_video_trace, hv, hf, runCalls]
    | ok tl =>
      cases ha : env.runAgent get_analyst (caption_of tl) with
      | error e => simp [summarize_video_trace, hv, hf, ha, runCalls]
      | ok ar =>
        cases hm : env.runAgent get_miner (caption_of tl) with
        | error e => simp [summarize_video_trace, hv, hf, ha, hm, runCalls]
        | ok mr => simp [summarize_video_trace, hv, hf, ha, hm, get_editor, runCalls]

/-- C4: pattern 1 is tried before pattern 2 and the first capture of the
first matching pattern is returned: the two spec examples evaluate to
JDYtbVxtBhw, any URL on which pattern 1 matches yields the pattern-1
capture, and only when pattern 1 fails is the pattern-2 result used. -/
theorem C4_pattern_order_and_examples :
    get_video_id ("https://www.youtube.com/watch?v=JDYtbVxtBhw") = some ("JDYtbVxtBhw") ∧
    get_video_id ("https://youtu.be/JDYtbVxtBhw?t=5") = some ("JDYtbVxtBhw") ∧
    (∀ (url : String) (t : List Char),
      regexSearch matchP1At url.data = some t → get_video_id url = some (String.mk t)) ∧
    (∀ url : String, regexSearch matchP1At url.data = none →
      get_video_id url = Option.map String.mk (regexSearch matchP2At url.data)) := by
  refine ⟨by decide, by decide, ?_, ?_⟩
  · intro url t h
    unfold get_video_id
    rw [h]
  · intro url h
    unfold get_video_id
    rw [h]
    cases h2 : regexSearch matchP2At url.data <;> simp

/-- C4 witness: the share-link URL below matches both patterns, and the
result is the pattern-1 capture. -/
theorem C4_pattern_order_and_examples_witness :
    get_video_id ("https://youtu.be/0123456789a") = some (String.mk ("0123456789a".data)) :=
  C4_pattern_order_and_examples.2.2.1 ("https://youtu.be/0123456789a")
    ("0123456789a".data) (by decide)

/-- C5: when neither pattern matches, get_video_id returns none, the
endpoint answers 400 Invalid YouTube URL, and the request performs no
external call at all: the fetcher and the generative stages are never
invoked. -/
theorem C5_no_match_400_no_downstream (url : String) (env : Env)
    (h1 : regexSearch matchP1At url.data = none)
    (h2 : regexSearch matchP2At url.data = none) :
    get_video_id url = none ∧
    summarize_video env { url := url }
      = .error { status_code := 400, detail := "Invalid YouTube URL" } ∧
    (summarize_video_trace env { url := url }).2 = [] := by
  have hv : get_video_id url = none := by
    unfold get_video_id
    rw [h1, h2]
  exact ⟨hv, by simp [summarize_video, hv], by simp [summarize_video_trace, hv]⟩

/-- C5 witness: a concrete URL with no match of either pattern. -/
theorem C5_no_match_400_no_downstream_witness :
    get_video_id ("not a url") = none ∧
    summarize_video okEnv { url := "not a url" }
      = .error { status_code := 400, detail := "Invalid YouTube URL" } ∧
    (summarize_video_trace okEnv { url := "not a url" }).2 = [] :=
  C5_no_match_400_no_downstream ("not a url") okEnv (by decide) (by decide)

/-- C6: the flattened transcript is the fragment texts joined with a
single space separator in original order: the two-fragment example gives
Hello world, and on every fragment list the implementation join agrees
with the single-space join written out recursively from the spec. -/
theorem C6_single_space_join :
    caption_of [{ text := "Hello" }, { text := "world" }] = "Hello world" ∧
    ∀ transcript_list : List Snippet,
      caption_of transcript_list
        = spec_join_single_space (transcript_list.map Snippet.text) := by
  constructor
  · decide
  · intro tl
    unfold caption_of
    have heta : (fun snippet : Snippet => snippet.text) = Snippet.text := rfl
    rw [heta]
    cases hm : tl.map Snippet.text with
    | nil => rfl
    | cons a as =>
      rw [spec_join_eq_tail as a]
      have hgo : String.intercalate (" ") (a :: as) = String.intercalate.go a " " as := rfl
      rw [hgo, go_eq_tail]

/-- C7: when the transcript fetch raises, the endpoint answers 404 with
the cause text appended to Transcript unavailable, and no generative
stage is invoked. -/
theorem C7_fetch_failure_404_no_stages (env : Env) (url vid msg : String)
    (hvid : get_video_id url = some vid)
    (hfetch : env.fetch vid = .error msg) :
    summarize_video env { url := url }
      = .error { status_code := 404, detail := "Transcript unavailable: " ++ msg } ∧
    runCalls (summarize_video_trace env { url := url }).2 = [] := by
  constructor
  · simp [summarize_video, hvid, hfetch]
  · simp [summarize_video_trace, hvid, hfetch, runCalls]

/-- C7 witness: a concrete environment whose fetch raises no captions. -/
theorem C7_fetch_failure_404_no_stages_witness :
    summarize_video fetchFailEnv { url := "https://youtu.be/dQw4w9WgXcQ" }
      = .error { status_code := 404, detail := "Transcript unavailable: " ++ "no captions" } ∧
    runCalls (summarize_video_trace fetchFailEnv { url := "https://youtu.be/dQw4w9WgXcQ" }).2 = [] :=
  C7_fetch_failure_404_no_stages fetchFailEnv ("https://youtu.be/dQw4w9WgXcQ")
    ("dQw4w9WgXcQ") ("no captions") (by decide) rfl

/-- C8: when any generative stage raises (the Analyst, the Miner, or the
Editor step, whose invocation always raises the AttributeError because
get_editor returns None), the endpoint answers 500 with the cause text
appended to AI Generation Error, the stages after the failing one are
not run, and no partial stage output reaches the caller: the recorded
generative calls end at the failing stage. -/
theorem C8_stage_failure_500_aborts (env : Env) (url vid : String)
    (tl : List Snippet) (e : String)
    (hvid : get_video_id url = some vid)
    (hfetch : env.fetch vid = .ok tl)
    (hcase :
      env.runAgent get_analyst (caption_of tl) = .error e
      ∨ ((∃ r, env.runAgent get_analyst (caption_of tl) = .ok r)
          ∧ env.runAgent get_miner (caption_of tl) = .error e)
      ∨ ((∃ r, env.runAgent get_analyst (caption_of tl) = .ok r)
          ∧ (∃ r, env.runAgent get_miner (caption_of tl) = .ok r)
          ∧ e = attrErrMsg)) :
    summarize_video env { url := url }
      = .error { status_code := 500, detail := "AI Generation Error: " ++ e } ∧
    runCalls (summarize_video_trace env { url := url }).2
      = (match env.runAgent get_analyst (caption_of tl) with
         | .error _ => [(get_analyst, caption_of tl)]
         | .ok _ => [(get_analyst, caption_of tl), (get_miner, caption_of tl)]) := by
  rcases hcase with ha | ⟨⟨r, ha⟩, hm⟩ | ⟨⟨r, ha⟩, ⟨r2, hm⟩, he⟩
  · constructor
    · simp [summarize_video, hvid, hfetch, ha]
    · simp [summarize_video_trace, hvid, hfetch, ha, runCalls]
  · constructor
    · simp [summarize_video, hvid, hfetch, ha, hm]
    · simp [summarize_video_trace, hvid, hfetch, ha, hm, runCalls]
  · subst he
    constructor
    · simp [summarize_video, hvid, hfetch, ha, hm, get_editor]
    · simp [summarize_video_trace, hvid, hfetch, ha, hm, get_editor, runCalls]

/-- C8 witness: an environment whose generative service raises on the
first stage; the request ends 500 and only the Analyst was invoked. -/
theorem C8_stage_failure_500_aborts_witness :
    summarize_video genFailEnv { url := "https://www.youtube.com/watch?v=JDYtbVxtBhw" }
      = .error { status_code := 500, detail := "AI Generation Error: " ++ "model overloaded" } ∧
    runCalls (summarize_video_trace genFailEnv { url := "https://www.youtube.com/watch?v=JDYtbVxtBhw" }).2
      = [(get_analyst, "Hello world")] := by
  have h := C8_stage_failure_500_aborts genFailEnv
    ("https://www.youtube.com/watch?v=JDYtbVxtBhw") ("JDYtbVxtBhw")
    [{ text := "Hello" }, { text := "world" }] ("model overloaded")
    (by decide) rfl (Or.inl rfl)
  exact ⟨h.1, h.2⟩

/-- C9: every identifier actually returned by get_video_id is exactly 11
characters long and each character lies in the class [0-9A-Za-z_-]. -/
theorem C9_token_shape (url s : String)
    (h : get_video_id url = some s) :
    s.length = 11 ∧ s.data.all isTokenChar = true := by
  unfold get_video_id at h
  cases h1 : regexSearch matchP1At url.data with
  | some t =>
    rw [h1] at h
    injection h with h
    subst h
    exact regexSearch_prop (P := fun t => t.length = 11 ∧ t.all isTokenChar = true)
      (fun l t hlt => matchP1At_some hlt) url.data t h1
  | none =>
    rw [h1] at h
    cases h2 : regexSearch matchP2At url.data with
    | some t =>
      rw [h2] at h
      injection h with h
      subst h
      exact regexSearch_prop (P := fun t => t.length = 11 ∧ t.all isTokenChar = true)
        (fun l t hlt => matchP2At_some hlt) url.data t h2
    | none =>
      rw [h2] at h
      cases h

/-- C9 witness: the identifier extracted from a concrete share link. -/
theorem C9_token_shape_witness :
    ("JDYtbVxtBhw" : String).length = 11 ∧
    ("JDYtbVxtBhw" : String).data.all isTokenChar = true :=
  C9_token_shape ("https://youtu.be/JDYtbVxtBhw") ("JDYtbVxtBhw") (by decide)

/-- C10: when the first position where pattern 1 anchors is a v= or a
slash followed by 12 or more class characters, get_video_id returns
exactly the first 11 of them: over-long tokens are truncated, not
rejected. -/
theorem C10_overlong_token_truncated (url : String) (i : Nat) (rest : List Char)
    (hfirst : ∀ j, j < i → matchP1At (url.data.drop j) = none)
    (hmark : url.data.drop i = 'v' :: '=' :: rest ∨ url.data.drop i = '/' :: rest)
    (hlen : 12 ≤ rest.length)
    (hcls : (rest.take 12).all isTokenChar = true) :
    get_video_id url = some (String.mk (rest.take 11)) := by
  have h11 : (rest.take 11).all isTokenChar = true := by
    rw [List.all_eq_true] at hcls ⊢
    intro x hx
    apply hcls
    have h1112 : (rest.take 12).take 11 = rest.take 11 := by
      rw [List.take_take]
      norm_num
    rw [← h1112] at hx
    exact List.take_subset _ _ hx
  have htk : takeToken rest = some (rest.take 11) := by
    unfold takeToken
    rw [if_pos ⟨by omega, h11⟩]
  have hmAt : matchP1At (url.data.drop i) = some (rest.take 11) := by
    rcases hmark with hm | hm <;> rw [hm] <;> unfold matchP1At
    · have ht2 : ('v' :: '=' :: rest).take 2 = ['v', '='] := rfl
      rw [if_pos ht2]
      exact htk
    · have hne : ¬ ('/' :: rest).take 2 = ['v', '='] := by
        intro hEq
        have hexp : ('/' :: rest).take 2 = '/' :: rest.take 1 := rfl
        rw [hexp] at hEq
        injection hEq with hhd _
        exact absurd hhd (by decide)
      rw [if_neg hne]
      have ht1 : ('/' :: rest).take 1 = ['/'] := rfl
      rw [if_pos ht1]
      exact htk
  have hs : regexSearch matchP1At url.data = some (rest.take 11) :=
    regexSearch_at i url.data hfirst hmAt
  unfold get_video_id
  rw [hs]

/-- C10 witness: after the slash there are 14 class characters and the
result is exactly the first 11 of them. -/
theorem C10_overlong_token_truncated_witness :
    get_video_id ("a/abcdefghij0123") = some ("abcdefghij0") := by
  have h := C10_overlong_token_truncated ("a/abcdefghij0123") 1 ("abcdefghij0123".data)
    (by decide) (Or.inr (by decide)) (by decide) (by decide)
  exact h

end VideoSummarizer
